import Mathlib

/-!
Shallow embedding of the inexor-rgf-core-model data-model layer.

The sources under review contain `component.rs` together with the test
suites for relation instances and flow instances.  The relation-instance,
property-store, identifier-derivation and flow-instance code itself is not
part of the reviewed sources; those definitions are modelled from the
specification (each such definition carries a doc comment starting with
`Modelled from the spec:`).  `Component`, `ComponentDao` and their
conversions are translated directly from `src/src/component.rs`.
-/

set_option maxHeartbeats 1000000

namespace InexorModel

/-- A universally unique identifier. UUIDs are 128-bit values; they are
modelled as natural numbers (the bound is irrelevant to every claim that
mentions them, they only serve as opaque vertex ids). -/
abbrev Uuid := Nat

/-- Modelled from the spec: the JSON-like dynamic property value
(spec section 3 and section 9) used by the property instance store; the
underlying `serde_json::Value` type is external to the reviewed sources.
It is a tagged union over null, boolean, unsigned integer, signed
integer, float, string, ordered sequence and string-keyed mapping.
Float payloads are carried as their 64-bit patterns, since only tag
matching and payload identity are specified, never float arithmetic. -/
inductive Value where
  | null : Value
  | bool (b : Bool) : Value
  | numU (n : Nat) : Value
  | numI (i : Int) : Value
  | numF (bits : Nat) : Value
  | str (s : String) : Value
  | arr (elems : List Value) : Value
  | obj (entries : List (String × Value)) : Value

/-- Modelled from the spec: typed accessor for booleans, a pattern match
returning absence on tag mismatch (spec section 9). -/
def Value.as_bool : Value → Option Bool
  | .bool b => some b
  | _ => none

/-- Modelled from the spec: typed accessor for unsigned integers; no
implicit numeric conversion from the signed or float tags. -/
def Value.as_u64 : Value → Option Nat
  | .numU n => some n
  | _ => none

/-- Modelled from the spec: typed accessor for signed integers; no
implicit numeric conversion from the unsigned or float tags. -/
def Value.as_i64 : Value → Option Int
  | .numI i => some i
  | _ => none

/-- Modelled from the spec: typed accessor for floats; no implicit
numeric conversion from the integer tags. -/
def Value.as_f64 : Value → Option Nat
  | .numF bits => some bits
  | _ => none

/-- Modelled from the spec: typed accessor for strings; no
string-to-number parsing in the numeric accessors and no number-to-string
rendering here. -/
def Value.as_string : Value → Option String
  | .str s => some s
  | _ => none

/-- Modelled from the spec: typed accessor for ordered sequences. -/
def Value.as_array : Value → Option (List Value)
  | .arr elems => some elems
  | _ => none

/-- Modelled from the spec: typed accessor for string-keyed mappings. -/
def Value.as_object : Value → Option (List (String × Value))
  | .obj entries => some entries
  | _ => none

/-- Modelled from the spec: the Property Instance Store, a mapping from
property name to dynamic value (spec section 3).  The Rust code uses a
`HashMap<String, Value>`; it is modelled as an association list whose
observable behaviour is fixed by `getProp` and `setProp` below, with at
most one binding consulted per name (the first one). -/
abbrev PropertyStore := List (String × Value)

/-- Lookup of a property by name: the value of the first binding whose
name matches exactly, absence otherwise. -/
def getProp : PropertyStore → String → Option Value
  | [], _ => none
  | kv :: rest, n => if kv.fst = n then some kv.snd else getProp rest n

/-- Modelled from the spec: `set(name, value)` inserts or overwrites and
preserves all other entries (spec section 4.2); the map-insert of the
underlying hash map is modelled as replace-first-or-append. -/
def setProp : PropertyStore → String → Value → PropertyStore
  | [], n, v => [(n, v)]
  | kv :: rest, n, v => if kv.fst = n then (n, v) :: rest else kv :: setProp rest n v

/-- Typed accessor over a store: fetch the raw value, then coerce; both a
missing name and a tag mismatch surface as absence. -/
def asBoolOf (s : PropertyStore) (n : String) : Option Bool :=
  (getProp s n).bind Value.as_bool

/-- Typed accessor over a store for unsigned integers. -/
def asU64Of (s : PropertyStore) (n : String) : Option Nat :=
  (getProp s n).bind Value.as_u64

/-- Typed accessor over a store for signed integers. -/
def asI64Of (s : PropertyStore) (n : String) : Option Int :=
  (getProp s n).bind Value.as_i64

/-- Typed accessor over a store for floats. -/
def asF64Of (s : PropertyStore) (n : String) : Option Nat :=
  (getProp s n).bind Value.as_f64

/-- Typed accessor over a store for strings. -/
def asStringOf (s : PropertyStore) (n : String) : Option String :=
  (getProp s n).bind Value.as_string

/-- Typed accessor over a store for sequences. -/
def asArrayOf (s : PropertyStore) (n : String) : Option (List Value) :=
  (getProp s n).bind Value.as_array

/-- Typed accessor over a store for mappings. -/
def asObjectOf (s : PropertyStore) (n : String) : Option (List (String × Value)) :=
  (getProp s n).bind Value.as_object

/-- The size of the space of fully qualified identifiers: the derivation
produces 128-bit values (the fixed-shape type slot of the graph store),
so every derived identifier is strictly below this bound. -/
def IDENTIFIER_SIZE : Nat := 2 ^ 128

/-- Modelled from the spec: the fixed separator used by the
separator-delimited encoding of a namespace and a type name
(spec section 4.1). -/
def TYPE_ID_TYPE_SEPARATOR : String := "__"

/-- Modelled from the spec: the per-category namespace constant for
components, a fixed 128-bit value (spec section 9, global type-category
namespace constants). -/
def NAMESPACE_COMPONENT : Nat := 0x0c7e7ef6f7a348f0a0a11a2c5ab2cf9e

/-- Modelled from the spec: the per-category namespace constant for
entity types. -/
def NAMESPACE_ENTITY_TYPE : Nat := 0x3fafcc23cc0a4f0fb1c1bb60faf81c56

/-- Modelled from the spec: the per-category namespace constant for
relation types. -/
def NAMESPACE_RELATION_TYPE : Nat := 0x1ab7c8109dcd11c180b400d02fd540c7

/-- Modelled from the spec: the per-category namespace constant for
flow types. -/
def NAMESPACE_FLOW_TYPE : Nat := 0x62be23b2a9b14f26aaca2d6423af1b0e

/-- Modelled from the spec: one absorption step of the deterministic
name-based hash behind the identifier derivation (spec section 4.1); the
128-bit state absorbs one input symbol and stays below the fixed size. -/
def hashStep (h b : Nat) : Nat := (h * 131 + b) % IDENTIFIER_SIZE

/-- Modelled from the spec: the collision-resistant deterministic
fixed-width name hash, seeded by a well-known namespace constant
(spec section 4.1); every input symbol is absorbed, so nothing is
truncated. -/
def nameHash (seed : Nat) (symbols : List Nat) : Nat :=
  symbols.foldl hashStep (seed % IDENTIFIER_SIZE)

/-- Modelled from the spec: the separator-delimited encoding of a
namespace and a type name, as the code points of the concatenation. -/
def encodeFqn (ns tn : String) : List Nat :=
  ((ns ++ TYPE_ID_TYPE_SEPARATOR ++ tn).toList).map Char.toNat

/-- Modelled from the spec: `fully_qualified_identifier` turns a
namespace, a type name and a per-category namespace constant into the
fixed-size opaque identifier used in the graph store's type slot
(spec sections 3 and 4.1); the identifier derivation code is not among
the reviewed sources, only its tests are. -/
def fully_qualified_identifier (ns tn : String) (category : Nat) : Nat :=
  nameHash category (encodeFqn ns tn)

/-- The graph-store edge key: the triple of outbound vertex id, fixed-size
type identifier and inbound vertex id (spec section 6). -/
structure EdgeKey where
  outbound_id : Uuid
  t : Nat
  inbound_id : Uuid
  deriving DecidableEq

/-- Modelled from the spec: an extension, opaque named metadata attached
to a type or an instance, uninterpreted by the core (spec section 3). -/
structure Extension where
  name : String
  extension : Value

/-- Modelled from the spec: a Relation Instance (spec section 3); the
relation-instance code is not among the reviewed sources, only its tests
are, and the field list follows the literal struct expression used by the
tests in relation_instance_test.rs. -/
structure RelationInstance where
  «namespace» : String
  outbound_id : Uuid
  type_name : String
  inbound_id : Uuid
  description : String
  properties : PropertyStore
  extensions : List Extension

/-- Modelled from the spec: `RelationInstance::new` builds an instance
with the given properties, empty description and empty extensions
(spec section 4.3). -/
def RelationInstance.new (ns : String) (outbound_id : Uuid) (tn : String)
    (inbound_id : Uuid) (properties : PropertyStore) : RelationInstance :=
  { «namespace» := ns, outbound_id := outbound_id, type_name := tn,
    inbound_id := inbound_id, description := "", properties := properties,
    extensions := [] }

/-- Modelled from the spec: `RelationInstance::new_without_properties`
builds an instance with an empty property store (spec section 4.3). -/
def RelationInstance.new_without_properties (ns : String) (outbound_id : Uuid)
    (tn : String) (inbound_id : Uuid) : RelationInstance :=
  RelationInstance.new ns outbound_id tn inbound_id []

/-- Modelled from the spec: `get_key` deterministically computes the edge
key from the identity fields alone (spec section 4.3). -/
def RelationInstance.get_key (r : RelationInstance) : EdgeKey :=
  { outbound_id := r.outbound_id,
    t := fully_qualified_identifier r.«namespace» r.type_name NAMESPACE_RELATION_TYPE,
    inbound_id := r.inbound_id }

/-- Modelled from the spec: `get` on a relation instance forwards to its
property instance store (spec section 4.3). -/
def RelationInstance.get (r : RelationInstance) (n : String) : Option Value :=
  getProp r.properties n

/-- Modelled from the spec: `set` on a relation instance forwards to its
property instance store (spec section 4.3). -/
def RelationInstance.set (r : RelationInstance) (n : String) (v : Value) :
    RelationInstance :=
  { r with properties := setProp r.properties n v }

/-- Delegated typed accessor for booleans. -/
def RelationInstance.as_bool (r : RelationInstance) (n : String) : Option Bool :=
  asBoolOf r.properties n

/-- Delegated typed accessor for unsigned integers. -/
def RelationInstance.as_u64 (r : RelationInstance) (n : String) : Option Nat :=
  asU64Of r.properties n

/-- Delegated typed accessor for signed integers. -/
def RelationInstance.as_i64 (r : RelationInstance) (n : String) : Option Int :=
  asI64Of r.properties n

/-- Delegated typed accessor for floats. -/
def RelationInstance.as_f64 (r : RelationInstance) (n : String) : Option Nat :=
  asF64Of r.properties n

/-- Delegated typed accessor for strings. -/
def RelationInstance.as_string (r : RelationInstance) (n : String) : Option String :=
  asStringOf r.properties n

/-- Delegated typed accessor for sequences. -/
def RelationInstance.as_array (r : RelationInstance) (n : String) : Option (List Value) :=
  asArrayOf r.properties n

/-- Delegated typed accessor for mappings. -/
def RelationInstance.as_object (r : RelationInstance) (n : String) :
    Option (List (String × Value)) :=
  asObjectOf r.properties n

/-- Modelled from the spec: the encoded property name produced by the
external property-naming convention (spec section 6).  The core must
recover the original property name from any such encoding, so the
encoding is modelled as a value that determines the original name. -/
structure PropertyIdentifier where
  original : String

/-- Modelled from the spec: `property_identifier` encodes a property name
for the graph store; the encoding is external and only required to be
reversible. -/
def property_identifier (n : String) : PropertyIdentifier :=
  { original := n }

/-- Decoding of an encoded property name back to the original name. -/
def PropertyIdentifier.decode (p : PropertyIdentifier) : String :=
  p.original

/-- A named property of a graph-store record: an encoded name and a
dynamic value (spec section 6). -/
structure NamedProperty where
  name : PropertyIdentifier
  value : Value

/-- A graph-store edge, carrying its key; the creation timestamp of the
store's native edge carries no specified information and is omitted. -/
structure Edge where
  key : EdgeKey

/-- The graph-store edge-properties record: an edge plus an ordered list
of named properties (spec section 6). -/
structure EdgeProperties where
  edge : Edge
  props : List NamedProperty

/-- Modelled from the spec: construction of a Relation Instance from a
graph-store edge-plus-properties record (spec section 4.3).  The
namespace and the type name are carried alongside the record rather than
decoded from the opaque type identifier (spec section 3: the identifier
is never decoded back).  The property store is built by inserting each
named property under its decoded name; description and extensions start
empty. -/
def RelationInstance.fromEdgeProperties (ns tn : String) (ep : EdgeProperties) :
    RelationInstance :=
  { «namespace» := ns,
    outbound_id := ep.edge.key.outbound_id,
    type_name := tn,
    inbound_id := ep.edge.key.inbound_id,
    description := "",
    properties := ep.props.foldl (fun s p => setProp s p.name.decode p.value) [],
    extensions := [] }

/-- Modelled from the spec: an Entity Instance, the wrapper shape from
which a flow instance is assembled (spec sections 2 and 3). -/
structure EntityInstance where
  «namespace» : String
  id : Uuid
  type_name : String
  description : String
  properties : PropertyStore
  extensions : List Extension

/-- Modelled from the spec: a Flow Instance, with the field list used
literally by the tests in flow_instance_test.rs. -/
structure FlowInstance where
  id : Uuid
  type_name : String
  name : String
  description : String
  entity_instances : List EntityInstance
  relation_instances : List RelationInstance

/-- Modelled from the spec: `FlowInstance::from_instance_with_name`, a
thin field copy from the wrapper entity instance: the flow takes the
wrapper's id and type name, the given name, and starts with the wrapper
as its only entity instance. -/
def FlowInstance.from_instance_with_name (w : EntityInstance) (n : String) :
    FlowInstance :=
  { id := w.id, type_name := w.type_name, name := n, description := "",
    entity_instances := [w], relation_instances := [] }

/-- Modelled from the spec: `FlowInstance::from`, the same thin field
copy with an empty flow name. -/
def FlowInstance.fromEntityInstance (w : EntityInstance) : FlowInstance :=
  FlowInstance.from_instance_with_name w ""

/-- Modelled from the spec: the namespaced type identifier of a
component, pairing a namespace with a type name (spec section 3); the
`ComponentTypeId` type itself is not among the reviewed sources, which
only use its namespace and type-name projections. -/
structure ComponentTypeId where
  «namespace» : String
  type_name : String
  deriving DecidableEq

/-- Modelled from the spec: `ComponentTypeId::new_from_type` builds the
identifier from a namespace string and a type-name string. -/
def ComponentTypeId.new_from_type (ns tn : String) : ComponentTypeId :=
  { «namespace» := ns, type_name := tn }

/-- Modelled from the spec: a declared property of a type definition
(spec section 3); only its name takes part in the reviewed code, the
expected data type is carried opaquely. -/
structure PropertyType where
  name : String
  data_type : String
  deriving DecidableEq

/-- A component defines a set of properties to be applied to entity
types and relation types; translated from `Component` in
src/src/component.rs. -/
structure Component where
  ty : ComponentTypeId
  description : String
  properties : List PropertyType
  extensions : List Extension

/-- Translated from `Component::new` in src/src/component.rs. -/
def Component.new (ty : ComponentTypeId) (description : String)
    (properties : List PropertyType) (extensions : List Extension) : Component :=
  { ty := ty, description := description, properties := properties,
    extensions := extensions }

/-- Translated from `Component::new_from_type` in src/src/component.rs. -/
def Component.new_from_type (ns tn description : String)
    (properties : List PropertyType) (extensions : List Extension) : Component :=
  { ty := ComponentTypeId.new_from_type ns tn, description := description,
    properties := properties, extensions := extensions }

/-- Translated from `Component::new_without_extensions` in
src/src/component.rs. -/
def Component.new_without_extensions (ty : ComponentTypeId) (description : String)
    (properties : List PropertyType) : Component :=
  { ty := ty, description := description, properties := properties,
    extensions := [] }

/-- Translated from `Component::new_without_properties` in
src/src/component.rs. -/
def Component.new_without_properties (ty : ComponentTypeId) (description : String)
    (extensions : List Extension) : Component :=
  { ty := ty, description := description, properties := [],
    extensions := extensions }

/-- Translated from `Component::has_property` in src/src/component.rs:
true if the component contains a property with the given name. -/
def Component.has_property (c : Component) (property_name : String) : Bool :=
  c.properties.any (fun p => p.name == property_name)

/-- Translated from `Component::has_extension` in src/src/component.rs:
true if the component contains an extension with the given name. -/
def Component.has_extension (c : Component) (extension_name : String) : Bool :=
  c.extensions.any (fun e => e.name == extension_name)

/-- Translated from the `NamespacedTypeGetter` implementation for
`Component` in src/src/component.rs. -/
def Component.nspace (c : Component) : String :=
  c.ty.«namespace»

/-- Translated from the `NamespacedTypeGetter` implementation for
`Component` in src/src/component.rs. -/
def Component.type_name (c : Component) : String :=
  c.ty.type_name

/-- The serializable mirror of a component; translated from
`ComponentDao` in src/src/component.rs. -/
structure ComponentDao where
  «namespace» : String
  type_name : String
  description : String
  properties : List PropertyType
  extensions : List Extension

/-- Translated from the conversion `From<&ComponentDao> for Component`
in src/src/component.rs: a field-for-field copy, with the namespace and
type name packed into the component type identifier. -/
def componentFromDao (dao : ComponentDao) : Component :=
  { ty := ComponentTypeId.new_from_type dao.«namespace» dao.type_name,
    description := dao.description,
    properties := dao.properties,
    extensions := dao.extensions }

/-- Translated from the conversion `From<&Component> for ComponentDao`
in src/src/component.rs: a field-for-field copy through the namespace
and type-name projections. -/
def daoFromComponent (c : Component) : ComponentDao :=
  { «namespace» := c.nspace, type_name := c.type_name,
    description := c.description, properties := c.properties,
    extensions := c.extensions }

/-- A persisted component record as it reaches the deserializer: each
field may be present or absent, and the legacy key `name` may stand in
for `type_name`.  The field inventory is translated from the serde
attributes on `ComponentDao` in src/src/component.rs. -/
structure ComponentDaoRecord where
  «namespace» : Option String
  type_name : Option String
  name : Option String
  description : Option String
  properties : Option (List PropertyType)
  extensions : Option (List Extension)

/-- Modelled from the spec: deserialization of a persisted component
record into a `ComponentDao` (the serde-derived deserializer is external
to the reviewed sources; its behaviour is fixed by the serde attributes
in src/src/component.rs and spec section 6): `namespace`, `description`,
`properties` and `extensions` default to empty values when missing, the
type name is taken from `type_name` or from the legacy alias `name`, and
a record carrying neither is rejected. -/
def deserializeComponentDao (r : ComponentDaoRecord) : Option ComponentDao :=
  match r.type_name.orElse (fun _ => r.name) with
  | none => none
  | some tn =>
      some { «namespace» := r.«namespace».getD "",
             type_name := tn,
             description := r.description.getD "",
             properties := r.properties.getD [],
             extensions := r.extensions.getD [] }

/-! Helper lemmas about the property instance store. -/

theorem getProp_setProp_same (s : PropertyStore) (n : String) (v : Value) :
    getProp (setProp s n v) n = some v := by
  induction s with
  | nil => simp [setProp, getProp]
  | cons kv rest ih =>
    by_cases h : kv.fst = n
    · simp [setProp, getProp, h]
    · simp [setProp, getProp, h, ih]

theorem getProp_setProp_other (s : PropertyStore) (n m : String) (v : Value)
    (hne : m ≠ n) : getProp (setProp s n v) m = getProp s m := by
  have hne' : n ≠ m := Ne.symm hne
  induction s with
  | nil => simp [setProp, getProp, hne']
  | cons kv rest ih =>
    by_cases h : kv.fst = n
    · simp [setProp, getProp, h, hne, hne']
    · by_cases hm : kv.fst = m
      · simp [setProp, getProp, h, hm, hne, hne']
      · simp [setProp, getProp, h, hm, ih]

/-! Helper lemmas: each typed accessor on a value returns a payload
exactly when the value carries the corresponding tag. -/

theorem as_bool_eq_some (v : Value) (b : Bool) :
    v.as_bool = some b ↔ v = .bool b := by
  cases v <;> simp [Value.as_bool]

theorem as_u64_eq_some (v : Value) (n : Nat) :
    v.as_u64 = some n ↔ v = .numU n := by
  cases v <;> simp [Value.as_u64]

theorem as_i64_eq_some (v : Value) (i : Int) :
    v.as_i64 = some i ↔ v = .numI i := by
  cases v <;> simp [Value.as_i64]

theorem as_f64_eq_some (v : Value) (bits : Nat) :
    v.as_f64 = some bits ↔ v = .numF bits := by
  cases v <;> simp [Value.as_f64]

theorem as_string_eq_some (v : Value) (s : String) :
    v.as_string = some s ↔ v = .str s := by
  cases v <;> simp [Value.as_string]

theorem as_array_eq_some (v : Value) (elems : List Value) :
    v.as_array = some elems ↔ v = .arr elems := by
  cases v <;> simp [Value.as_array]

theorem as_object_eq_some (v : Value) (entries : List (String × Value)) :
    v.as_object = some entries ↔ v = .obj entries := by
  cases v <;> simp [Value.as_object]

/-! Helper lemmas about the identifier derivation hash. -/

theorem identifier_size_pos : 0 < IDENTIFIER_SIZE := by
  norm_num [IDENTIFIER_SIZE]

theorem foldl_hashStep_lt (l : List Nat) (h : Nat) (hh : h < IDENTIFIER_SIZE) :
    l.foldl hashStep h < IDENTIFIER_SIZE := by
  induction l generalizing h with
  | nil => exact hh
  | cons b rest ih => exact ih _ (Nat.mod_lt _ identifier_size_pos)

theorem nameHash_lt (seed : Nat) (l : List Nat) :
    nameHash seed l < IDENTIFIER_SIZE :=
  foldl_hashStep_lt l _ (Nat.mod_lt _ identifier_size_pos)

theorem nameHash_append_single (seed : Nat) (l : List Nat) (b : Nat) :
    nameHash seed (l ++ [b]) = hashStep (nameHash seed l) b := by
  simp [nameHash, List.foldl_append, hashStep]

theorem hashStep_right_inj (h b1 b2 : Nat) (hb1 : b1 < IDENTIFIER_SIZE)
    (hb2 : b2 < IDENTIFIER_SIZE) (he : hashStep h b1 = hashStep h b2) :
    b1 = b2 := by
  have hmod : b1 ≡ b2 [MOD IDENTIFIER_SIZE] :=
    Nat.ModEq.add_left_cancel' (h * 131) he
  have h1 := Nat.mod_eq_of_lt hb1
  have h2 := Nat.mod_eq_of_lt hb2
  unfold Nat.ModEq at hmod
  rw [h1, h2] at hmod
  exact hmod

theorem char_toNat_lt (c : Char) : Char.toNat c < IDENTIFIER_SIZE := by
  have h32 : Char.toNat c < UInt32.size := UInt32.toNat_lt_size c.val
  have : UInt32.size ≤ IDENTIFIER_SIZE := by norm_num [UInt32.size, IDENTIFIER_SIZE]
  omega

theorem char_toNat_inj {c1 c2 : Char} (h : Char.toNat c1 = Char.toNat c2) :
    c1 = c2 :=
  Char.eq_of_val_eq (UInt32.eq_of_toBitVec_eq (BitVec.eq_of_toNat_eq h))

theorem encodeFqn_push (ns tn : String) (c : Char) :
    encodeFqn ns (tn.push c) = encodeFqn ns tn ++ [Char.toNat c] := by
  simp [encodeFqn, String.toList]

/-! Helper lemmas about building a property store by repeated insertion,
used for the reconstruction of a relation instance from a graph-store
record. -/

theorem getProp_foldl_setProp_not_mem (props : List NamedProperty)
    (acc : PropertyStore) (n : String)
    (hn : n ∉ props.map (fun p => p.name.decode)) :
    getProp (props.foldl (fun s p => setProp s p.name.decode p.value) acc) n
      = getProp acc n := by
  induction props generalizing acc with
  | nil => rfl
  | cons p rest ih =>
    have h1 : n ≠ p.name.decode := by
      intro h
      exact hn (by simp [h])
    have h2 : n ∉ rest.map (fun q => q.name.decode) := by
      intro h
      exact hn (by simp [h])
    calc getProp ((p :: rest).foldl (fun s q => setProp s q.name.decode q.value) acc) n
        = getProp (setProp acc p.name.decode p.value) n := ih _ h2
      _ = getProp acc n := getProp_setProp_other acc _ n _ h1

theorem getProp_foldl_setProp_mem (props : List NamedProperty)
    (acc : PropertyStore)
    (hnodup : (props.map (fun p => p.name.decode)).Nodup)
    (p : NamedProperty) (hp : p ∈ props) :
    getProp (props.foldl (fun s q => setProp s q.name.decode q.value) acc)
      p.name.decode = some p.value := by
  induction props generalizing acc with
  | nil => cases hp
  | cons q rest ih =>
    rw [List.map_cons, List.nodup_cons] at hnodup
    cases hp with
    | head =>
      calc getProp ((p :: rest).foldl (fun s q => setProp s q.name.decode q.value) acc)
            p.name.decode
          = getProp (setProp acc p.name.decode p.value) p.name.decode :=
            getProp_foldl_setProp_not_mem rest _ _ hnodup.1
        _ = some p.value := getProp_setProp_same acc _ _
    | tail _ hp' =>
      exact ih _ hnodup.2 hp'

/-- C1: for every relation instance, `get_key` equals the edge-key triple
of its outbound id, the fully qualified identifier derived from the
relation-type category constant, its namespace and its type name, and its
inbound id. -/
theorem claim_C1 (r : RelationInstance) :
    r.get_key = { outbound_id := r.outbound_id,
                  t := fully_qualified_identifier r.«namespace» r.type_name
                         NAMESPACE_RELATION_TYPE,
                  inbound_id := r.inbound_id } :=
  rfl

/-- C2: after `set(n, v)` the typed accessor matching the dynamic kind of
`v` returns its payload, and every other typed accessor returns absence;
in particular no implicit numeric conversion happens between the
unsigned-integer, signed-integer and float accessors.  Each accessor over
the instance returns exactly the value-level coercion of `v` (first seven
conjuncts), and it returns a payload exactly when `v` carries the
corresponding tag (last seven conjuncts). -/
theorem claim_C2 (i : RelationInstance) (n : String) (v : Value) :
    ((i.set n v).as_bool n = v.as_bool) ∧
    ((i.set n v).as_u64 n = v.as_u64) ∧
    ((i.set n v).as_i64 n = v.as_i64) ∧
    ((i.set n v).as_f64 n = v.as_f64) ∧
    ((i.set n v).as_string n = v.as_string) ∧
    ((i.set n v).as_array n = v.as_array) ∧
    ((i.set n v).as_object n = v.as_object) ∧
    (∀ b, (i.set n v).as_bool n = some b ↔ v = .bool b) ∧
    (∀ m, (i.set n v).as_u64 n = some m ↔ v = .numU m) ∧
    (∀ m, (i.set n v).as_i64 n = some m ↔ v = .numI m) ∧
    (∀ m, (i.set n v).as_f64 n = some m ↔ v = .numF m) ∧
    (∀ s, (i.set n v).as_string n = some s ↔ v = .str s) ∧
    (∀ xs, (i.set n v).as_array n = some xs ↔ v = .arr xs) ∧
    (∀ kvs, (i.set n v).as_object n = some kvs ↔ v = .obj kvs) := by
  have hg : getProp (setProp i.properties n v) n = some v :=
    getProp_setProp_same i.properties n v
  have e1 : (i.set n v).as_bool n = v.as_bool := by
    simp [RelationInstance.set, RelationInstance.as_bool, asBoolOf, hg]
  have e2 : (i.set n v).as_u64 n = v.as_u64 := by
    simp [RelationInstance.set, RelationInstance.as_u64, asU64Of, hg]
  have e3 : (i.set n v).as_i64 n = v.as_i64 := by
    simp [RelationInstance.set, RelationInstance.as_i64, asI64Of, hg]
  have e4 : (i.set n v).as_f64 n = v.as_f64 := by
    simp [RelationInstance.set, RelationInstance.as_f64, asF64Of, hg]
  have e5 : (i.set n v).as_string n = v.as_string := by
    simp [RelationInstance.set, RelationInstance.as_string, asStringOf, hg]
  have e6 : (i.set n v).as_array n = v.as_array := by
    simp [RelationInstance.set, RelationInstance.as_array, asArrayOf, hg]
  have e7 : (i.set n v).as_object n = v.as_object := by
    simp [RelationInstance.set, RelationInstance.as_object, asObjectOf, hg]
  refine ⟨e1, e2, e3, e4, e5, e6, e7, ?_, ?_, ?_, ?_, ?_, ?_, ?_⟩
  · exact fun b => e1 ▸ as_bool_eq_some v b
  · exact fun m => e2 ▸ as_u64_eq_some v m
  · exact fun m => e3 ▸ as_i64_eq_some v m
  · exact fun m => e4 ▸ as_f64_eq_some v m
  · exact fun s => e5 ▸ as_string_eq_some v s
  · exact fun xs => e6 ▸ as_array_eq_some v xs
  · exact fun kvs => e7 ▸ as_object_eq_some v kvs

/-- Witness for C2 at a concrete input: storing the unsigned integer 123
makes the unsigned-integer accessor return 123 and the boolean accessor
return absence. -/
theorem claim_C2_witness :
    ((RelationInstance.new "ns" 1 "t" 2 []).set "n" (Value.numU 123)).as_u64 "n"
        = some 123 ∧
    ((RelationInstance.new "ns" 1 "t" 2 []).set "n" (Value.numU 123)).as_bool "n"
        = none := by
  have h := claim_C2 (RelationInstance.new "ns" 1 "t" 2 []) "n" (Value.numU 123)
  constructor
  · exact (h.2.2.2.2.2.2.2.2.1 123).mpr rfl
  · rw [h.1]
    rfl

/-- C3: two relation instances agreeing on namespace, type name, outbound
id and inbound id have equal keys, whatever their description, properties
and extensions are. -/
theorem claim_C3 (r1 r2 : RelationInstance)
    (h : r1.«namespace» = r2.«namespace» ∧ r1.type_name = r2.type_name ∧
         r1.outbound_id = r2.outbound_id ∧ r1.inbound_id = r2.inbound_id) :
    r1.get_key = r2.get_key := by
  obtain ⟨h1, h2, h3, h4⟩ := h
  simp [RelationInstance.get_key, h1, h2, h3, h4]

/-- Witness for C3: two concrete instances sharing only the identity
quadruple, with different descriptions, properties and extensions, have
the same key. -/
theorem claim_C3_witness :
    ({ «namespace» := "ns", outbound_id := 1, type_name := "Likes",
       inbound_id := 2, description := "a",
       properties := [("weight", Value.numU 1)],
       extensions := [] } : RelationInstance).get_key
      = ({ «namespace» := "ns", outbound_id := 1, type_name := "Likes",
           inbound_id := 2, description := "b", properties := [],
           extensions := [{ name := "x", extension := Value.null }] } :
           RelationInstance).get_key :=
  claim_C3 _ _ ⟨rfl, rfl, rfl, rfl⟩

/-- C4: reconstructing a relation instance from a graph-store
edge-plus-properties record round-trips: the namespace and type name
match the pair used to build the edge key, re-deriving the key reproduces
the original edge key (type component included), and each named property
with distinct encoded names is recovered in the property store under its
original decoded name with its original value. -/
theorem claim_C4 (ns tn : String) (out inb : Uuid) (props : List NamedProperty)
    (hnodup : (props.map (fun p => p.name.decode)).Nodup) :
    (RelationInstance.fromEdgeProperties ns tn
        ⟨⟨⟨out, fully_qualified_identifier ns tn NAMESPACE_RELATION_TYPE, inb⟩⟩,
          props⟩).«namespace» = ns ∧
    (RelationInstance.fromEdgeProperties ns tn
        ⟨⟨⟨out, fully_qualified_identifier ns tn NAMESPACE_RELATION_TYPE, inb⟩⟩,
          props⟩).type_name = tn ∧
    (RelationInstance.fromEdgeProperties ns tn
        ⟨⟨⟨out, fully_qualified_identifier ns tn NAMESPACE_RELATION_TYPE, inb⟩⟩,
          props⟩).get_key
      = ⟨out, fully_qualified_identifier ns tn NAMESPACE_RELATION_TYPE, inb⟩ ∧
    ∀ p ∈ props,
      getProp (RelationInstance.fromEdgeProperties ns tn
          ⟨⟨⟨out, fully_qualified_identifier ns tn NAMESPACE_RELATION_TYPE, inb⟩⟩,
            props⟩).properties p.name.decode = some p.value := by
  refine ⟨rfl, rfl, rfl, ?_⟩
  intro p hp
  exact getProp_foldl_setProp_mem props [] hnodup p hp

/-- Witness for C4: a concrete record with one encoded property named
weight round-trips to the original edge key and the original property
binding. -/
theorem claim_C4_witness :
    (RelationInstance.fromEdgeProperties "ns" "Likes"
        ⟨⟨⟨1, fully_qualified_identifier "ns" "Likes" NAMESPACE_RELATION_TYPE, 2⟩⟩,
          [⟨property_identifier "weight", Value.numF 42⟩]⟩).get_key
      = ⟨1, fully_qualified_identifier "ns" "Likes" NAMESPACE_RELATION_TYPE, 2⟩ ∧
    getProp (RelationInstance.fromEdgeProperties "ns" "Likes"
        ⟨⟨⟨1, fully_qualified_identifier "ns" "Likes" NAMESPACE_RELATION_TYPE, 2⟩⟩,
          [⟨property_identifier "weight", Value.numF 42⟩]⟩).properties "weight"
      = some (Value.numF 42) := by
  have h := claim_C4 "ns" "Likes" 1 2
    [⟨property_identifier "weight", Value.numF 42⟩] (by simp)
  refine ⟨h.2.2.1, ?_⟩
  exact h.2.2.2 ⟨property_identifier "weight", Value.numF 42⟩ (by simp)

/-- C5: the fully-qualified-identifier derivation is total on all
namespace and type-name strings (so in particular on strings of 1000
characters), always lands in the fixed 128-bit identifier space, and does
not truncate its input: even the character appended after an arbitrarily
long type name still influences the result. -/
theorem claim_C5 (ns tn : String) (category : Nat) (c1 c2 : Char)
    (hne : c1 ≠ c2) :
    fully_qualified_identifier ns tn category < IDENTIFIER_SIZE ∧
    fully_qualified_identifier ns (tn.push c1) category
      ≠ fully_qualified_identifier ns (tn.push c2) category := by
  refine ⟨nameHash_lt _ _, ?_⟩
  intro he
  unfold fully_qualified_identifier at he
  rw [encodeFqn_push, encodeFqn_push, nameHash_append_single,
    nameHash_append_single] at he
  exact hne (char_toNat_inj
    (hashStep_right_inj _ _ _ (char_toNat_lt c1) (char_toNat_lt c2) he))

/-- Witness for C5 at 1000-character namespace and type-name strings: the
derivation stays inside the fixed identifier space and still
distinguishes the final appended character. -/
theorem claim_C5_witness :
    fully_qualified_identifier (String.mk (List.replicate 1000 'a'))
        (String.mk (List.replicate 1000 'b')) NAMESPACE_RELATION_TYPE
      < IDENTIFIER_SIZE ∧
    fully_qualified_identifier (String.mk (List.replicate 1000 'a'))
        ((String.mk (List.replicate 1000 'b')).push 'x') NAMESPACE_RELATION_TYPE
      ≠ fully_qualified_identifier (String.mk (List.replicate 1000 'a'))
          ((String.mk (List.replicate 1000 'b')).push 'y') NAMESPACE_RELATION_TYPE :=
  claim_C5 (String.mk (List.replicate 1000 'a'))
    (String.mk (List.replicate 1000 'b')) NAMESPACE_RELATION_TYPE 'x' 'y'
    (by decide)

/-- C6: `set` on a property store always succeeds, preserves every other
entry, and a lookup or typed accessor after the set observes exactly the
just-set value (accessors are pure functions of the store, so they cannot
mutate it). -/
theorem claim_C6 (s : PropertyStore) (n m : String) (v : Value) (hne : m ≠ n) :
    getProp (setProp s n v) m = getProp s m ∧
    getProp (setProp s n v) n = some v ∧
    asBoolOf (setProp s n v) n = v.as_bool ∧
    asU64Of (setProp s n v) n = v.as_u64 ∧
    asI64Of (setProp s n v) n = v.as_i64 ∧
    asF64Of (setProp s n v) n = v.as_f64 ∧
    asStringOf (setProp s n v) n = v.as_string ∧
    asArrayOf (setProp s n v) n = v.as_array ∧
    asObjectOf (setProp s n v) n = v.as_object := by
  have hg := getProp_setProp_same s n v
  exact ⟨getProp_setProp_other s n m v hne, hg,
    by simp [asBoolOf, hg], by simp [asU64Of, hg], by simp [asI64Of, hg],
    by simp [asF64Of, hg], by simp [asStringOf, hg], by simp [asArrayOf, hg],
    by simp [asObjectOf, hg]⟩

/-- Witness for C6 at a concrete store: setting a fresh name leaves the
existing binding untouched and is immediately observable. -/
theorem claim_C6_witness :
    getProp (setProp [("a", Value.numU 1)] "b" (Value.bool true)) "a"
      = getProp [("a", Value.numU 1)] "a" ∧
    getProp (setProp [("a", Value.numU 1)] "b" (Value.bool true)) "b"
      = some (Value.bool true) := by
  have h := claim_C6 [("a", Value.numU 1)] "b" "a" (Value.bool true) (by decide)
  exact ⟨h.1, h.2.1⟩

/-- C7: `has_property` is true exactly when some declared property of the
component has precisely the given name, and `has_extension` is true
exactly when some declared extension has precisely the given name;
matching is plain string equality, so every non-matching input, the empty
string included, yields false. -/
theorem claim_C7 (c : Component) (x : String) :
    (c.has_property x = true ↔ ∃ p ∈ c.properties, p.name = x) ∧
    (c.has_extension x = true ↔ ∃ e ∈ c.extensions, e.name = x) := by
  constructor
  · simp [Component.has_property, List.any_eq_true]
  · simp [Component.has_extension, List.any_eq_true]

/-- Witness for C7: a component declaring the single property x reports x
as present and the empty string as absent. -/
theorem claim_C7_witness :
    (Component.new ⟨"ns", "c"⟩ "" [⟨"x", "string"⟩] []).has_property "x" = true ∧
    (Component.new ⟨"ns", "c"⟩ "" [⟨"x", "string"⟩] []).has_property "" = false := by
  constructor
  · exact (claim_C7 (Component.new ⟨"ns", "c"⟩ "" [⟨"x", "string"⟩] []) "x").1.mpr
      ⟨⟨"x", "string"⟩, by simp [Component.new], rfl⟩
  · rfl

/-- C8: the two conversions between a component and its DAO are
field-for-field copies inverse to each other, the legacy alias `name`
yields the same DAO as the primary key `type_name`, and default-filling
takes place only for fields missing from a persisted record: a record
with all fields present is copied verbatim. -/
theorem claim_C8 (c : Component) (dao : ComponentDao) (ns tn d : String)
    (props : List PropertyType) (exts : List Extension) :
    componentFromDao (daoFromComponent c) = c ∧
    daoFromComponent (componentFromDao dao) = dao ∧
    deserializeComponentDao ⟨some ns, some tn, none, some d, some props, some exts⟩
      = some ⟨ns, tn, d, props, exts⟩ ∧
    deserializeComponentDao ⟨some ns, none, some tn, some d, some props, some exts⟩
      = some ⟨ns, tn, d, props, exts⟩ ∧
    deserializeComponentDao ⟨none, some tn, none, none, none, none⟩
      = some ⟨"", tn, "", [], []⟩ := by
  refine ⟨?_, ?_, rfl, rfl, rfl⟩
  · obtain ⟨⟨tns, tnn⟩, cd, cp, ce⟩ := c
    rfl
  · obtain ⟨dns, dtn, dd, dp, de⟩ := dao
    rfl

/-- C9: deserializing a persisted component record fails exactly when the
record carries neither a `type_name` field nor its legacy alias `name`;
the type name is the only field without a default. -/
theorem claim_C9 (r : ComponentDaoRecord) :
    deserializeComponentDao r = none ↔ (r.type_name = none ∧ r.name = none) := by
  obtain ⟨ns, tn, nm, d, p, e⟩ := r
  cases tn <;> cases nm <;> simp [deserializeComponentDao, Option.orElse]

/-- Witness for C9: a record with every field except the type name is
rejected. -/
theorem claim_C9_witness :
    deserializeComponentDao ⟨some "ns", none, none, some "", some [], some []⟩
      = none :=
  (claim_C9 ⟨some "ns", none, none, some "", some [], some []⟩).mpr ⟨rfl, rfl⟩

/-- C10: a flow instance built from a wrapper entity instance copies the
wrapper's id and type name and has the empty name, and building it with
an explicit name yields the same fields except that the name is the given
one. -/
theorem claim_C10 (w : EntityInstance) (n : String) :
    (FlowInstance.fromEntityInstance w).id = w.id ∧
    (FlowInstance.fromEntityInstance w).type_name = w.type_name ∧
    (FlowInstance.fromEntityInstance w).name = "" ∧
    (FlowInstance.from_instance_with_name w n).id = w.id ∧
    (FlowInstance.from_instance_with_name w n).type_name = w.type_name ∧
    (FlowInstance.from_instance_with_name w n).name = n :=
  ⟨rfl, rfl, rfl, rfl, rfl, rfl⟩

end InexorModel
